import Mathlib

/-!
# Authorization and activity-audit layer of the social-content backend

A shallow embedding of the HTTP handlers of the repository
(`internal/postHandler`, `internal/commentHandler`, `internal/userHandler`,
`internal/activityHandler`, `utils/random_joke.go`).

* The relational tables are explicit lists of rows (`World`).
* Everything a handler obtains from outside its own code during one request
  (the state of `config.Pool`, storage faults, the identifier storage assigns,
  the joke service, the clock, the library functions for URL validation,
  bcrypt and JWT signing) is a field of `Env`.
* A handler is a function `Env → Context → World → Outcome × World`.
* A statement issued on a nil `config.Pool` dereferences a nil pointer: the
  handler panics (`Outcome.panic`) where it first uses the pool. Only
  `LogActivity` tests the pointer itself.
* Output to the process log (`fmt.Println`, `log.Printf`) is not modelled.
-/

namespace GC3

/-! ## Data model -/

/-- The `Post` struct of `post_handler.go`; also a row of table `posts`. -/
structure Post where
  ID : Int
  Content : String
  ImageURL : String
  UserID : Int
deriving DecidableEq, Repr

/-- The `Comment` struct of `comment_handler.go`; also a row of table `comments`. -/
structure Comment where
  ID : Int
  Content : String
  PostID : Int
  AuthorID : Int
deriving DecidableEq, Repr

/-- The `Activity` struct of `activity_handler.go`; also a row of table
`user_activity_logs` (`ID` and `CreatedAt` are assigned by storage). -/
structure Activity where
  ID : Int
  UserID : Int
  Description : String
  CreatedAt : String
deriving DecidableEq, Repr

/-- The columns of table `users` held in the `Users` struct of `user_handler.go`
(`Password` is the stored bcrypt hash). -/
structure Users where
  ID : Int
  FullName : String
  Email : String
  Username : String
  Password : String
  Age : Int
deriving DecidableEq, Repr

/-- The `LoginRequest` struct of `user_handler.go`. -/
structure LoginRequest where
  Email : String
  Password : String
deriving DecidableEq, Repr

/-- The `RegisterRequest` struct of `user_handler.go`. Its tags declare
`required` on every field and `gt=0` on `Age`. -/
structure RegisterRequest where
  FullName : String
  Email : String
  Username : String
  Password : String
  Age : Int
deriving DecidableEq, Repr

/-- The `jwt.MapClaims` value built by `Login`: keys `user_id` and `exp`. -/
structure Claims where
  user_id : Int
  exp : Int
deriving DecidableEq, Repr

/-- Error values a statement on `config.Pool` can return, as far as the
handlers distinguish them. `sqlErrNoRows` is the sentinel `sql.ErrNoRows` of
`database/sql`; `pgxErrNoRows` is the sentinel `pgx.ErrNoRows` of the pgx
driver; `pgError code` is a `*pgconn.PgError` with that SQLSTATE code. -/
inductive DbError where
  | sqlErrNoRows
  | pgxErrNoRows
  | pgError (code : String)
  | other (msg : String)
deriving DecidableEq, Repr

/-- The tables, and a counter of the calls made to the joke service. -/
structure World where
  posts : List Post
  comments : List Comment
  logs : List Activity
  users : List Users
  jokeCalls : Nat
deriving DecidableEq, Repr

/-- Behaviour of `config.Pool` during one request. The package that declares
`Pool` is not among the sources, so what it determines is a parameter:
whether the pointer is non-nil, the error `Scan` reports when a query yields
no row, and for each statement whether storage rejects it. -/
structure Pool where
  /-- Whether `config.Pool != nil`. -/
  initialised : Bool
  /-- The error `QueryRow(..).Scan(..)` returns when the query has no row. -/
  noRows : DbError
  /-- Fault of a `SELECT`, if any. -/
  queryFault : Option DbError
  /-- Result of an `INSERT .. RETURNING id` on posts, comments or users: the
  assigned id. -/
  insertResult : Except DbError Int
  /-- Fault of a `DELETE`, if any. -/
  deleteFault : Option DbError
  /-- Fault of the `INSERT` into `user_activity_logs`, if any. -/
  logFault : Option DbError
  /-- Identifier storage assigns to a new activity row. -/
  logID : Int
  /-- Timestamp storage assigns to a new activity row. -/
  logCreatedAt : String

/-- Result of the HTTP exchange `client.Do(req)` in `FetchRandomJoke`:
the status code and the result of reading the body. -/
structure HttpResponse where
  StatusCode : Nat
  body : Except String String

/-- What `FetchRandomJoke` obtains from outside: the environment variable, the
outcome of building and sending the request, and `json.Unmarshal` into the
slice of `joke` fields. -/
structure JokeService where
  apiKey : String
  newRequestErr : Option String
  doResult : Except String HttpResponse
  unmarshal : String → Except String (List String)

/-- Everything external to the handlers during one request. -/
structure Env where
  pool : Pool
  joke : JokeService
  /-- The `url` rule of the validator library. -/
  isURL : String → Bool
  /-- Result of `bcrypt.GenerateFromPassword password bcrypt.DefaultCost`. -/
  generateFromPassword : String → Except String String
  /-- Whether `bcrypt.CompareHashAndPassword hash password` returns nil. -/
  compareHashAndPassword : String → String → Bool
  /-- The instant `time.Now()`, in nanoseconds since the Unix epoch. -/
  now : Int
  /-- Signature `token.SignedString(secret)` of a claims set. -/
  signedString : Claims → String → Except String String

/-- The part of `echo.Context` the handlers read: the user id returned by
`utils.GetUserIDFromToken`, the path parameter `id`, and the result of
`c.Bind` for each request type (`none` when binding fails). -/
structure Context where
  tokenUserID : Int
  idParam : String
  bindPost : Option Post
  bindComment : Option Comment
  bindLogin : Option LoginRequest
  bindRegister : Option RegisterRequest := none

/-- JSON bodies the handlers write. -/
inductive Body where
  | message (m : String)
  | post (m : String) (p : Post)
  | comment (m : String) (c : Comment)
  | token (t : String)
  | registered (m : String) (user_id : String) (email : String)
deriving DecidableEq, Repr

/-- What a handler does with the response: `c.JSON(status, body)`, or a
panic on dereferencing a nil `config.Pool`. -/
inductive Outcome where
  | json (status : Nat) (body : Body)
  | panic
deriving DecidableEq, Repr

/-- Status code of an outcome, when a response was written. -/
def Outcome.status? : Outcome → Option Nat
  | .json s _ => some s
  | .panic => none

/-! ## Library functions -/

/-- Go `unicode.IsSpace`. -/
def isSpace (c : Char) : Bool :=
  let n := c.toNat
  n == 0x09 || n == 0x0A || n == 0x0B || n == 0x0C || n == 0x0D || n == 0x20 ||
  n == 0x85 || n == 0xA0 || n == 0x1680 || (0x2000 ≤ n && n ≤ 0x200A) ||
  n == 0x2028 || n == 0x2029 || n == 0x202F || n == 0x205F || n == 0x3000

/-- Go `strings.TrimSpace`: drop leading and trailing white space. -/
def TrimSpace (s : String) : String :=
  String.mk ((s.data.dropWhile isSpace).reverse.dropWhile isSpace).reverse

/-- Go `strconv.Atoi`: an optional sign, then one or more decimal digits, the
value within the range of a 64-bit `int`. -/
def Atoi (s : String) : Option Int :=
  let ds : List Char :=
    match s.data with
    | '-' :: r => r
    | '+' :: r => r
    | r => r
  let neg : Bool :=
    match s.data with
    | '-' :: _ => true
    | _ => false
  if ds.isEmpty || !ds.all Char.isDigit then none
  else
    let n : Nat := ds.foldl (fun a c => a * 10 + (c.toNat - 48)) 0
    let v : Int := if neg then -(n : Int) else (n : Int)
    if -(2 ^ 63 : Int) ≤ v ∧ v ≤ 2 ^ 63 - 1 then some v else none

/-- Go `strconv.Itoa`: the decimal form of an integer. -/
def Itoa (i : Int) : String :=
  toString i

/-- Go conversion `string(i)` of an integer `i`: the UTF-8 text of the code
point `i`, and of U+FFFD when `i` is not a valid code point (negative, above
U+10FFFF, or a surrogate). -/
def runeString (i : Int) : String :=
  if 0 ≤ i ∧ i ≤ 0x10FFFF ∧ ¬ (0xD800 ≤ i ∧ i ≤ 0xDFFF) then
    String.singleton (Char.ofNat i.toNat)
  else String.singleton (Char.ofNat 0xFFFD)

/-- Go `time.Hour` as a `time.Duration`: nanoseconds in one hour. -/
def Hour : Int :=
  3600 * 1000000000

/-- Go `time.Second` as a `time.Duration`: nanoseconds in one second. -/
def Second : Int :=
  1000000000

/-- The function `jwt.NewNumericDate` of golang-jwt, on instants in nanoseconds
since the Unix epoch: `t.Truncate(jwt.TimePrecision)`, the instant rounded
down to a multiple of the precision. `jwt.TimePrecision` is `time.Second`
unless a program assigns it, and no source file does. -/
def NewNumericDate (t : Int) : Int :=
  t - t % Second

/-- The package variable `jwtSecret` of `user_handler.go`. -/
def jwtSecret : String :=
  "12345"

/-- `FetchRandomJoke` of `utils/random_joke.go`: the `joke` field of the first
element of the returned array, or an error. -/
def FetchRandomJoke (j : JokeService) : Except String String :=
  if j.apiKey == "" then .error "API_NINJAS_KEY environment variable not set"
  else
    match j.newRequestErr with
    | some err => .error ("failed to create request: " ++ err)
    | none =>
      match j.doResult with
      | .error err => .error ("failed to fetch random joke: " ++ err)
      | .ok resp =>
        if resp.StatusCode != 200 then
          .error ("received non-OK response: " ++ toString resp.StatusCode)
        else
          match resp.body with
          | .error err => .error ("failed to read response body: " ++ err)
          | .ok body =>
            match j.unmarshal body with
            | .error err => .error ("failed to parse response: " ++ err)
            | .ok [] => .error "no jokes found in the response"
            | .ok (first :: _) => .ok first

/-! ## Storage statements -/

/-- `SELECT user_id FROM posts WHERE id = $1` scanned into one value. -/
def selectPostOwner (p : Pool) (w : World) (postID : Int) : Except DbError Int :=
  match p.queryFault with
  | some err => .error err
  | none =>
    match w.posts.find? (fun x => x.ID == postID) with
    | some x => .ok x.UserID
    | none => .error p.noRows

/-- `DELETE FROM posts WHERE id = $1`. -/
def execDeletePost (p : Pool) (w : World) (postID : Int) : Option DbError × World :=
  match p.deleteFault with
  | some err => (some err, w)
  | none => (none, { w with posts := w.posts.filter (fun x => x.ID != postID) })

/-- `INSERT INTO posts (content, image_url, user_id) VALUES ($1, $2, $3) RETURNING id`. -/
def insertPost (p : Pool) (w : World) (content imageURL : String) (userID : Int) :
    Except DbError Int × World :=
  match p.insertResult with
  | .error err => (.error err, w)
  | .ok n => (.ok n, { w with posts := w.posts ++ [⟨n, content, imageURL, userID⟩] })

/-- `SELECT author_id FROM comments WHERE id = $1` scanned into one value. -/
def selectCommentOwner (p : Pool) (w : World) (commentID : Int) : Except DbError Int :=
  match p.queryFault with
  | some err => .error err
  | none =>
    match w.comments.find? (fun x => x.ID == commentID) with
    | some x => .ok x.AuthorID
    | none => .error p.noRows

/-- `DELETE FROM comments WHERE id = $1`. -/
def execDeleteComment (p : Pool) (w : World) (commentID : Int) : Option DbError × World :=
  match p.deleteFault with
  | some err => (some err, w)
  | none => (none, { w with comments := w.comments.filter (fun x => x.ID != commentID) })

/-- `INSERT INTO comments (content, post_id, author_id) VALUES ($1, $2, $3) RETURNING id`. -/
def insertComment (p : Pool) (w : World) (content : String) (postID authorID : Int) :
    Except DbError Int × World :=
  match p.insertResult with
  | .error err => (.error err, w)
  | .ok n => (.ok n, { w with comments := w.comments ++ [⟨n, content, postID, authorID⟩] })

/-- `SELECT id, email, password FROM users WHERE email = $1` scanned into the
`ID`, `Email` and `Password` fields of a zero `Users` value. -/
def selectUserByEmail (p : Pool) (w : World) (email : String) : Except DbError Users :=
  match p.queryFault with
  | some err => .error err
  | none =>
    match w.users.find? (fun u => u.Email == email) with
    | some u => .ok ⟨u.ID, "", u.Email, "", u.Password, 0⟩
    | none => .error p.noRows

/-- `INSERT INTO users (full_name, email, username, password, age)
VALUES ($1, $2, $3, $4, $5) RETURNING id`. -/
def insertUser (p : Pool) (w : World) (fullName email username password : String)
    (age : Int) : Except DbError Int × World :=
  match p.insertResult with
  | .error err => (.error err, w)
  | .ok n => (.ok n, { w with users := w.users ++ [⟨n, fullName, email, username, password, age⟩] })

/-! ## Handlers -/

/-- Errors returned by `LogActivity`. -/
inductive LogError where
  | poolNotInitialised
  | failedToLog (err : DbError)
deriving DecidableEq, Repr

/-- `LogActivity` of `activity_handler.go`:
`INSERT INTO user_activity_logs (user_id, description) VALUES ($1, $2)`. -/
def LogActivity (p : Pool) (userID : Int) (description : String) (w : World) :
    Option LogError × World :=
  if !p.initialised then (some .poolNotInitialised, w)
  else
    match p.logFault with
    | some err => (some (.failedToLog err), w)
    | none =>
      (none, { w with logs := w.logs ++ [⟨p.logID, userID, description, p.logCreatedAt⟩] })

/-- `validate.Struct(post)`: tag `required,url` on `ImageURL`. -/
def validatePost (e : Env) (post : Post) : Bool :=
  post.ImageURL != "" && e.isURL post.ImageURL

/-- `validate.Struct(comment)`: tag `required` on `Content` and on `PostID`. -/
def validateComment (comment : Comment) : Bool :=
  comment.Content != "" && comment.PostID != 0

/-- Lines 58-68 of `CreatePost`: when the trimmed content is empty the joke
service is called; the result is the content to store, or `none` when the
call failed. -/
def fillContent (e : Env) (content : String) (w : World) : Option String × World :=
  if TrimSpace content == "" then
    let w1 := { w with jokeCalls := w.jokeCalls + 1 }
    match FetchRandomJoke e.joke with
    | .error _ => (none, w1)
    | .ok joke => (some joke, w1)
  else (some content, w)

/-- `CreatePost` of `post_handler.go`. -/
def CreatePost (e : Env) (c : Context) (w : World) : Outcome × World :=
  let userID := c.tokenUserID
  if userID == 0 then (.json 401 (.message "not authorized"), w)
  else
    match c.bindPost with
    | none => (.json 400 (.message "invalid request body"), w)
    | some post =>
      if !validatePost e post then (.json 400 (.message "invalid image_url format"), w)
      else
        match fillContent e post.Content w with
        | (none, w1) => (.json 500 (.message "failed to fetch random joke"), w1)
        | (some content, w1) =>
          if !e.pool.initialised then (.panic, w1)
          else
            match insertPost e.pool w1 content post.ImageURL userID with
            | (.error _, w2) => (.json 500 (.message "failed to create post"), w2)
            | (.ok n, w2) =>
              let description := "User created a new POST with ID " ++ Itoa n
              let w3 := (LogActivity e.pool userID description w2).2
              (.json 201 (.post "post created successfully" ⟨n, content, post.ImageURL, userID⟩), w3)

/-- `CreateComment` of `comment_handler.go`. -/
def CreateComment (e : Env) (c : Context) (w : World) : Outcome × World :=
  let authorID := c.tokenUserID
  if authorID == 0 then (.json 401 (.message "not authorized"), w)
  else
    match c.bindComment with
    | none => (.json 400 (.message "invalid request body"), w)
    | some comment =>
      if !validateComment comment then (.json 400 (.message "invalid input"), w)
      else
        let description := "User commented on POST with ID " ++ Itoa comment.PostID
        match LogActivity e.pool authorID description w with
        | (some _, w1) => (.json 500 (.message "failed to log activity"), w1)
        | (none, w1) =>
          if !e.pool.initialised then (.panic, w1)
          else
            match insertComment e.pool w1 comment.Content comment.PostID authorID with
            | (.error _, w2) => (.json 500 (.message "failed to create comment"), w2)
            | (.ok n, w2) =>
              (.json 201 (.comment "comment created successfully"
                ⟨n, comment.Content, comment.PostID, authorID⟩), w2)

/-- `DeletePost` of `post_handler.go`. -/
def DeletePost (e : Env) (c : Context) (w : World) : Outcome × World :=
  match Atoi c.idParam with
  | none => (.json 400 (.message "invalid post ID"), w)
  | some postID =>
    let userID := c.tokenUserID
    if userID == 0 then (.json 401 (.message "unauthenticated"), w)
    else if !e.pool.initialised then (.panic, w)
    else
      match selectPostOwner e.pool w postID with
      | .error _ => (.json 404 (.message "post not found"), w)
      | .ok postOwnerID =>
        if postOwnerID != userID then
          (.json 403 (.message "you are not authorized to delete this post"), w)
        else
          match execDeletePost e.pool w postID with
          | (some _, w1) => (.json 500 (.message "failed to delete post"), w1)
          | (none, w1) => (.json 200 (.message "post deleted successfully"), w1)

/-- `DeleteCommentByID` of `comment_handler.go`. -/
def DeleteCommentByID (e : Env) (c : Context) (w : World) : Outcome × World :=
  match Atoi c.idParam with
  | none => (.json 400 (.message "invalid comment ID"), w)
  | some commentID =>
    let authorID := c.tokenUserID
    if authorID == 0 then (.json 401 (.message "not authorized"), w)
    else if !e.pool.initialised then (.panic, w)
    else
      match selectCommentOwner e.pool w commentID with
      | .error err =>
        if err == DbError.sqlErrNoRows then (.json 404 (.message "comment not found"), w)
        else (.json 500 (.message "failed to validate ownership"), w)
      | .ok commentOwnerID =>
        if commentOwnerID != authorID then
          (.json 403 (.message "you are not authorized to delete this comment"), w)
        else
          match execDeleteComment e.pool w commentID with
          | (some _, w1) => (.json 500 (.message "failed to delete comment"), w1)
          | (none, w1) => (.json 200 (.message "comment deleted successfully"), w1)

/-- The claims `Login` signs for a user at the instant `now`. -/
def loginClaims (e : Env) (user : Users) : Claims :=
  { user_id := user.ID, exp := NewNumericDate (e.now + 72 * Hour) }

/-- `Login` of `user_handler.go`. -/
def Login (e : Env) (c : Context) (w : World) : Outcome × World :=
  match c.bindLogin with
  | none => (.json 400 (.message "Invalid Request"), w)
  | some req =>
    if !e.pool.initialised then (.panic, w)
    else
      match selectUserByEmail e.pool w req.Email with
      | .error _ => (.json 400 (.message "Invalid email or password"), w)
      | .ok user =>
        if !e.compareHashAndPassword user.Password req.Password then
          (.json 400 (.message "Invalid email or password"), w)
        else
          match e.signedString (loginClaims e user) jwtSecret with
          | .error _ => (.json 500 (.message "Invalid Generate Token"), w)
          | .ok tokenString => (.json 200 (.token tokenString), w)

/-- The rules the tags of `RegisterRequest` declare, as far as they are rules
of the validator library: `required` on the four strings (non-empty) and
`required,gt=0` on `Age`. No statement of `Register` evaluates them. -/
def registerRequestConstraints (req : RegisterRequest) : Bool :=
  req.FullName != "" && req.Email != "" && req.Username != "" && req.Password != "" &&
  req.Age != 0 && decide (req.Age > 0)

/-- `Register` of `user_handler.go`. -/
def Register (e : Env) (c : Context) (w : World) : Outcome × World :=
  match c.bindRegister with
  | none => (.json 400 (.message "Invalid Request"), w)
  | some req =>
    match e.generateFromPassword req.Password with
    | .error _ => (.json 500 (.message "Internal Server Error"), w)
    | .ok hashPassword =>
      if !e.pool.initialised then (.panic, w)
      else
        match insertUser e.pool w req.FullName req.Email req.Username hashPassword req.Age with
        | (.error err, w1) =>
          match err with
          | .pgError code =>
            if code == "23505" then (.json 400 (.message "Email already registered"), w1)
            else (.json 500 (.message "Internal Server Error"), w1)
          | _ => (.json 500 (.message "Internal Server Error"), w1)
        | (.ok userID, w1) =>
          (.json 200 (.registered "User registered successfully" (runeString userID)
            req.Email), w1)

/-! ## Concrete environments and requests -/

/-- A pgx connection pool without faults: absence of a row is reported as
`pgx.ErrNoRows`, the next insert is assigned id 10. The handlers call
`config.Pool.QueryRow(ctx, sql, args...)` and `Register` inspects
`*pgconn.PgError`, which is the API of the pgx driver. -/
def pgxPool : Pool :=
  { initialised := true
    noRows := DbError.pgxErrNoRows
    queryFault := none
    insertResult := .ok 10
    deleteFault := none
    logFault := none
    logID := 1
    logCreatedAt := "2024-12-01T10:00:00Z" }

/-- A joke service that answers with one joke. -/
def oneJoke : JokeService :=
  { apiKey := "key"
    newRequestErr := none
    doResult := .ok { StatusCode := 200, body := .ok "[]" }
    unmarshal := fun _ => .ok ["Why did the gopher cross the road?"] }

/-- An environment over `pgxPool`: the clock reads 1.5 s after the epoch, a
password matches the hash `"hash:" ++ password`, the signature lists the
secret and the claims. -/
def pgxEnv : Env :=
  { pool := pgxPool
    joke := oneJoke
    isURL := fun s => s.data.take 7 == "http://".data
    generateFromPassword := fun password => .ok ("hash:" ++ password)
    compareHashAndPassword := fun hash password => hash == "hash:" ++ password
    now := 1500000000
    signedString := fun cl secret =>
      .ok (secret ++ "." ++ toString cl.user_id ++ "." ++ toString cl.exp) }

/-- Two posts owned by users 7 and 8, one comment by user 8, one user. -/
def smallWorld : World :=
  { posts := [⟨1, "hello", "http://img/a.png", 7⟩, ⟨2, "bye", "http://img/b.png", 8⟩]
    comments := [⟨5, "nice", 1, 8⟩]
    logs := []
    users := [⟨7, "Ann Lee", "ann@example.com", "ann", "hash:secret", 30⟩]
    jokeCalls := 0 }

/-- A request without body: caller id from the token and path parameter `id`. -/
def deleteRequest (caller : Int) (id : String) : Context :=
  { tokenUserID := caller, idParam := id, bindPost := none, bindComment := none,
    bindLogin := none }

/-- A `POST /posts` request bound to `post`. -/
def postRequest (caller : Int) (post : Post) : Context :=
  { tokenUserID := caller, idParam := "", bindPost := some post, bindComment := none,
    bindLogin := none }

/-- A `POST /comments` request bound to `comment`. -/
def commentRequest (caller : Int) (comment : Comment) : Context :=
  { tokenUserID := caller, idParam := "", bindPost := none, bindComment := some comment,
    bindLogin := none }

/-- A `POST /users/login` request bound to `req`. -/
def loginRequest (req : LoginRequest) : Context :=
  { tokenUserID := 0, idParam := "", bindPost := none, bindComment := none,
    bindLogin := some req }

/-- The environment `pgxEnv` with storage rejecting the insert of a post or
comment with a foreign-key violation (SQLSTATE 23503). -/
def rejectingInsertEnv : Env :=
  { pgxEnv with pool := { pgxPool with insertResult := .error (DbError.pgError "23503") } }

/-- The environment `pgxEnv` with storage rejecting the insert into
`user_activity_logs`. -/
def rejectingLogEnv : Env :=
  { pgxEnv with pool := { pgxPool with logFault := some (DbError.other "connection reset") } }

/-- The environment `pgxEnv` with storage failing the `DELETE` statement. -/
def rejectingDeleteEnv : Env :=
  { pgxEnv with pool := { pgxPool with deleteFault := some (DbError.other "context canceled") } }

/-- The environment `pgxEnv` with storage failing the `SELECT` statement. -/
def failingQueryEnv : Env :=
  { pgxEnv with pool := { pgxPool with queryFault := some (DbError.other "context canceled") } }

/-- A `POST /users/register` request bound to `req`. -/
def registerRequest (req : RegisterRequest) : Context :=
  { tokenUserID := 0, idParam := "", bindPost := none, bindComment := none,
    bindLogin := none, bindRegister := some req }

/-- The environment `pgxEnv` with storage rejecting the insert with a
unique-constraint violation (SQLSTATE 23505). -/
def uniqueViolationEnv : Env :=
  { pgxEnv with pool := { pgxPool with insertResult := .error (DbError.pgError "23505") } }

/-! ## Theorems -/

/-- No row satisfies the search predicate exactly when `find?` returns nothing
(posts by id). -/
theorem find_post_none (posts : List Post) (postID : Int) :
    posts.find? (fun x => x.ID == postID) = none ↔ ∀ p ∈ posts, p.ID ≠ postID := by
  simp [List.find?_eq_none]

/-- C1, as stated, fails. User 7 asks to delete post 1, which user 7 owns,
and storage fails the `DELETE`: the response is 500 and the post is not
removed. User 8 asks to delete post 1, which user 7 owns, and storage fails
the `SELECT`: the response is 404, not 403. -/
theorem DeletePost_storage_failures :
    Atoi (deleteRequest 7 "1").idParam = some 1 ∧
    smallWorld.posts.find? (fun x => x.ID == 1) = some ⟨1, "hello", "http://img/a.png", 7⟩ ∧
    DeletePost rejectingDeleteEnv (deleteRequest 7 "1") smallWorld =
      (.json 500 (.message "failed to delete post"), smallWorld) ∧
    (DeletePost rejectingDeleteEnv (deleteRequest 7 "1") smallWorld).1.status? ≠ some 200 ∧
    DeletePost failingQueryEnv (deleteRequest 8 "1") smallWorld =
      (.json 404 (.message "post not found"), smallWorld) ∧
    (DeletePost failingQueryEnv (deleteRequest 8 "1") smallWorld).1.status? ≠ some 403 := by
  decide

/-- C1, amended: for a `DeletePost` request with an integer id and a non-zero
caller id, on an initialised pool. With no post of that id the response is
404 and the world is unchanged. When the lookup succeeds and finds a post
whose owner is not the caller, the response is 403 and the world is
unchanged. The response is 200 exactly when the lookup and the delete both
succeed and the post exists with the caller as owner; a 200 response removes
the rows of that id, and every other response leaves the world unchanged. An
owned post whose delete fails gives 500. -/
theorem DeletePost_contract (e : Env) (c : Context) (w : World) (postID : Int)
    (hid : Atoi c.idParam = some postID) (hauth : c.tokenUserID ≠ 0)
    (hpool : e.pool.initialised = true) :
    ((∀ p ∈ w.posts, p.ID ≠ postID) →
      DeletePost e c w = (.json 404 (.message "post not found"), w)) ∧
    (e.pool.queryFault = none →
      ∀ p, w.posts.find? (fun x => x.ID == postID) = some p → p.UserID ≠ c.tokenUserID →
        DeletePost e c w =
          (.json 403 (.message "you are not authorized to delete this post"), w)) ∧
    ((DeletePost e c w).1.status? = some 200 ↔
      e.pool.queryFault = none ∧ e.pool.deleteFault = none ∧
      ∃ p, w.posts.find? (fun x => x.ID == postID) = some p ∧ p.UserID = c.tokenUserID) ∧
    ((DeletePost e c w).1.status? = some 200 →
      DeletePost e c w =
        (.json 200 (.message "post deleted successfully"),
          { w with posts := w.posts.filter (fun x => x.ID != postID) }) ∧
      ∀ q ∈ (DeletePost e c w).2.posts, q.ID ≠ postID) ∧
    ((DeletePost e c w).1.status? ≠ some 200 → (DeletePost e c w).2 = w) ∧
    (e.pool.queryFault = none → e.pool.deleteFault ≠ none →
      ∀ p, w.posts.find? (fun x => x.ID == postID) = some p → p.UserID = c.tokenUserID →
        DeletePost e c w = (.json 500 (.message "failed to delete post"), w)) := by
  refine ⟨?_, ?_⟩
  · intro hnone
    have h := (find_post_none w.posts postID).2 hnone
    cases hq : e.pool.queryFault <;>
      simp [DeletePost, hid, hauth, hpool, selectPostOwner, hq, h]
  · cases hq : e.pool.queryFault with
    | some err => simp [DeletePost, hid, hauth, hpool, selectPostOwner, hq, Outcome.status?]
    | none =>
      cases hf : w.posts.find? (fun x => x.ID == postID) with
      | none =>
        simp [DeletePost, hid, hauth, hpool, selectPostOwner, hq, hf, Outcome.status?]
      | some p =>
        by_cases hown : p.UserID = c.tokenUserID
        · cases hd : e.pool.deleteFault <;>
            simp [DeletePost, hid, hauth, hpool, selectPostOwner, hq, hf, hown, execDeletePost,
              hd, Outcome.status?]
        · simp [DeletePost, hid, hauth, hpool, selectPostOwner, hq, hf, hown, Outcome.status?]

/-- Witness of C1 amended: user 7 deletes their own post 1 from `smallWorld`. -/
theorem DeletePost_contract_witness :
    Atoi (deleteRequest 7 "1").idParam = some 1 ∧ (deleteRequest 7 "1").tokenUserID ≠ 0 ∧
    pgxEnv.pool.initialised = true ∧
    DeletePost pgxEnv (deleteRequest 7 "1") smallWorld =
      (.json 200 (.message "post deleted successfully"),
        { smallWorld with posts := [⟨2, "bye", "http://img/b.png", 8⟩] }) :=
  ⟨by decide, by decide, rfl,
    ((DeletePost_contract pgxEnv (deleteRequest 7 "1") smallWorld 1 (by decide) (by decide)
      rfl).2.2.2.1
      (((DeletePost_contract pgxEnv (deleteRequest 7 "1") smallWorld 1 (by decide) (by decide)
        rfl).2.2.1).2 ⟨rfl, rfl, ⟨1, "hello", "http://img/a.png", 7⟩, by decide, by decide⟩)).1⟩

/-- For any pool: when no comment has the requested id, `DeleteCommentByID`
answers 404 if the pool reports absence as `sql.ErrNoRows` and 500 otherwise;
the world is unchanged either way. -/
theorem DeleteCommentByID_absent (e : Env) (c : Context) (w : World) (commentID : Int)
    (hid : Atoi c.idParam = some commentID) (hauth : c.tokenUserID ≠ 0)
    (hpool : e.pool.initialised = true) (hq : e.pool.queryFault = none)
    (hnone : w.comments.find? (fun x => x.ID == commentID) = none) :
    DeleteCommentByID e c w =
      (if e.pool.noRows = DbError.sqlErrNoRows then
          Outcome.json 404 (.message "comment not found")
        else Outcome.json 500 (.message "failed to validate ownership"), w) := by
  by_cases h : e.pool.noRows = DbError.sqlErrNoRows <;>
    simp [DeleteCommentByID, hid, hauth, hpool, selectCommentOwner, hq, hnone, h]

/-- C2: on the pgx pool, user 8 asks to delete comment 99, which has no row in
`smallWorld`: the lookup error is `pgx.ErrNoRows`, it is not equal to
`sql.ErrNoRows`, and the response is 500 "failed to validate ownership"
instead of 404 "comment not found". -/
theorem DeleteCommentByID_missing_row_is_500 :
    (∀ x ∈ smallWorld.comments, x.ID ≠ 99) ∧
    DeleteCommentByID pgxEnv (deleteRequest 8 "99") smallWorld =
      (.json 500 (.message "failed to validate ownership"), smallWorld) := by
  decide

/-- C3, as stated, fails: with no verified identity and a path parameter that
is not an integer, `DeletePost` and `DeleteCommentByID` answer 400, not 401. -/
theorem unauthenticated_delete_bad_id_is_400 :
    (deleteRequest 0 "abc").tokenUserID = 0 ∧
    DeletePost pgxEnv (deleteRequest 0 "abc") smallWorld =
      (.json 400 (.message "invalid post ID"), smallWorld) ∧
    DeleteCommentByID pgxEnv (deleteRequest 0 "abc") smallWorld =
      (.json 400 (.message "invalid comment ID"), smallWorld) ∧
    (DeletePost pgxEnv (deleteRequest 0 "abc") smallWorld).1.status? ≠ some 401 ∧
    (DeleteCommentByID pgxEnv (deleteRequest 0 "abc") smallWorld).1.status? ≠ some 401 := by
  decide

/-- C3, amended: when the extracted user id is 0, every mutating handler
leaves the world (posts, comments, activity log, users, count of joke calls)
unchanged; `CreatePost` and `CreateComment` answer 401; `DeletePost` and
`DeleteCommentByID` answer 401 when the path parameter is an integer and 400
when it is not. -/
theorem unauthenticated_no_write (e : Env) (c : Context) (w : World)
    (h0 : c.tokenUserID = 0) :
    CreatePost e c w = (.json 401 (.message "not authorized"), w) ∧
    CreateComment e c w = (.json 401 (.message "not authorized"), w) ∧
    (DeletePost e c w).2 = w ∧
    (DeleteCommentByID e c w).2 = w ∧
    (∀ id, Atoi c.idParam = some id →
      DeletePost e c w = (.json 401 (.message "unauthenticated"), w) ∧
      DeleteCommentByID e c w = (.json 401 (.message "not authorized"), w)) ∧
    (Atoi c.idParam = none →
      DeletePost e c w = (.json 400 (.message "invalid post ID"), w) ∧
      DeleteCommentByID e c w = (.json 400 (.message "invalid comment ID"), w)) := by
  refine ⟨?_, ?_, ?_, ?_, ?_, ?_⟩
  · simp [CreatePost, h0]
  · simp [CreateComment, h0]
  · cases hid : Atoi c.idParam <;> simp [DeletePost, hid, h0]
  · cases hid : Atoi c.idParam <;> simp [DeleteCommentByID, hid, h0]
  · intro id hid
    simp [DeletePost, DeleteCommentByID, hid, h0]
  · intro hid
    simp [DeletePost, DeleteCommentByID, hid]

/-- Witness of C3 amended: a request with user id 0 and path parameter "1". -/
theorem unauthenticated_no_write_witness :
    (deleteRequest 0 "1").tokenUserID = 0 ∧
    DeletePost pgxEnv (deleteRequest 0 "1") smallWorld =
      (.json 401 (.message "unauthenticated"), smallWorld) ∧
    CreatePost pgxEnv (deleteRequest 0 "1") smallWorld =
      (.json 401 (.message "not authorized"), smallWorld) :=
  ⟨rfl,
    ((unauthenticated_no_write pgxEnv (deleteRequest 0 "1") smallWorld rfl).2.2.2.2.1 1
      (by decide)).1,
    (unauthenticated_no_write pgxEnv (deleteRequest 0 "1") smallWorld rfl).1⟩

/-- C4: when `CreateComment` answers 201, the response carries a comment whose
author id is the caller id from the token, that same comment is the row
appended to the comments table, and its content and post id are those of the
request body; the `author_id` of the request body is not used. -/
theorem CreateComment_author_is_caller (e : Env) (c : Context) (w : World) (body : Body)
    (h : (CreateComment e c w).1 = .json 201 body) :
    ∃ sent stored, c.bindComment = some sent ∧
      body = .comment "comment created successfully" stored ∧
      stored.AuthorID = c.tokenUserID ∧
      stored.Content = sent.Content ∧ stored.PostID = sent.PostID ∧
      (CreateComment e c w).2.comments = w.comments ++ [stored] := by
  unfold CreateComment at h ⊢
  by_cases h0 : c.tokenUserID = 0
  · simp [h0] at h
  · cases hb : c.bindComment with
    | none => simp [h0, hb] at h
    | some sent =>
      by_cases hv : validateComment sent = true
      · by_cases hp : e.pool.initialised = true
        · cases hl : e.pool.logFault with
          | some err => simp [h0, hb, hv, LogActivity, hp, hl] at h
          | none =>
            cases hi : e.pool.insertResult with
            | error err => simp [h0, hb, hv, LogActivity, hp, hl, insertComment, hi] at h
            | ok n =>
              simp [h0, hb, hv, LogActivity, hp, hl, insertComment, hi] at h ⊢
              exact ⟨_, h.symm, rfl, rfl, rfl, rfl⟩
        · simp [h0, hb, hv, LogActivity, hp] at h
      · simp [h0, hb, hv] at h

/-- Witness of C4: user 8 comments on post 1 with a body that names author 999. -/
theorem CreateComment_author_is_caller_witness :
    (CreateComment pgxEnv (commentRequest 8 ⟨0, "agreed", 1, 999⟩) smallWorld).1 =
      .json 201 (.comment "comment created successfully" ⟨10, "agreed", 1, 8⟩) ∧
    ∃ sent stored, (commentRequest 8 ⟨0, "agreed", 1, 999⟩).bindComment = some sent ∧
      Body.comment "comment created successfully" ⟨10, "agreed", 1, 8⟩ =
        .comment "comment created successfully" stored ∧
      stored.AuthorID = (commentRequest 8 ⟨0, "agreed", 1, 999⟩).tokenUserID ∧
      stored.Content = sent.Content ∧ stored.PostID = sent.PostID ∧
      (CreateComment pgxEnv (commentRequest 8 ⟨0, "agreed", 1, 999⟩) smallWorld).2.comments =
        smallWorld.comments ++ [stored] :=
  ⟨by decide,
    CreateComment_author_is_caller pgxEnv (commentRequest 8 ⟨0, "agreed", 1, 999⟩) smallWorld _
      (by decide)⟩

/-- C5: with the pool initialised, a `Login` request whose email matches no
user row and a `Login` request whose email matches a row but whose password
fails the hash comparison get the same response, 400 "Invalid email or
password", whatever else differs between the two runs. -/
theorem Login_failures_indistinguishable (e1 e2 : Env) (c1 c2 : Context) (w1 w2 : World)
    (r1 r2 : LoginRequest) (u : Users)
    (hp1 : e1.pool.initialised = true) (hp2 : e2.pool.initialised = true)
    (hb1 : c1.bindLogin = some r1) (hb2 : c2.bindLogin = some r2)
    (hno : ∀ x ∈ w1.users, x.Email ≠ r1.Email)
    (hyes : w2.users.find? (fun x => x.Email == r2.Email) = some u)
    (hbad : e2.compareHashAndPassword u.Password r2.Password = false) :
    (Login e1 c1 w1).1 = .json 400 (.message "Invalid email or password") ∧
    (Login e2 c2 w2).1 = .json 400 (.message "Invalid email or password") ∧
    (Login e1 c1 w1).1 = (Login e2 c2 w2).1 := by
  have hfind : w1.users.find? (fun x => x.Email == r1.Email) = none := by
    simp only [List.find?_eq_none]
    intro x hx
    simpa using hno x hx
  have h1 : (Login e1 c1 w1).1 = .json 400 (.message "Invalid email or password") := by
    cases hq : e1.pool.queryFault <;>
      simp [Login, hb1, hp1, selectUserByEmail, hq, hfind]
  have h2 : (Login e2 c2 w2).1 = .json 400 (.message "Invalid email or password") := by
    cases hq : e2.pool.queryFault <;>
      simp [Login, hb2, hp2, selectUserByEmail, hq, hyes, hbad]
  exact ⟨h1, h2, h1.trans h2.symm⟩

/-- Witness of C5: an unknown email against a known email with a wrong password. -/
theorem Login_failures_indistinguishable_witness :
    (Login pgxEnv (loginRequest ⟨"bob@example.com", "secret"⟩) smallWorld).1 =
      (Login pgxEnv (loginRequest ⟨"ann@example.com", "wrong"⟩) smallWorld).1 :=
  (Login_failures_indistinguishable pgxEnv pgxEnv (loginRequest ⟨"bob@example.com", "secret"⟩)
    (loginRequest ⟨"ann@example.com", "wrong"⟩) smallWorld smallWorld
    ⟨"bob@example.com", "secret"⟩ ⟨"ann@example.com", "wrong"⟩
    ⟨7, "Ann Lee", "ann@example.com", "ann", "hash:secret", 30⟩
    rfl rfl rfl rfl (by decide) (by decide) (by decide)).2.2

/-- Dropping a leading run of elements satisfying `p` leaves only elements
satisfying `p` exactly when all elements satisfy `p`. -/
theorem all_of_dropWhile_all {α : Type} (p : α → Bool) (l : List α) :
    (∀ x ∈ l.dropWhile p, p x = true) ↔ ∀ x ∈ l, p x = true := by
  induction l with
  | nil => simp
  | cons a t ih =>
    by_cases ha : p a = true
    · simp [List.dropWhile_cons, ha, ih]
    · simp [List.dropWhile_cons, ha]

/-- The trimmed string is empty exactly when every character is white space. -/
theorem TrimSpace_eq_empty_iff (s : String) :
    TrimSpace s = "" ↔ ∀ ch ∈ s.data, isSpace ch = true := by
  unfold TrimSpace
  rw [String.ext_iff]
  change ((s.data.dropWhile isSpace).reverse.dropWhile isSpace).reverse = [] ↔ _
  simp only [List.reverse_eq_nil_iff, List.dropWhile_eq_nil_iff, List.mem_reverse]
  exact all_of_dropWhile_all isSpace s.data

/-- The joke phase of `CreatePost` touches no table. -/
theorem fillContent_frame (e : Env) (content : String) (w : World) :
    (fillContent e content w).2.posts = w.posts ∧
    (fillContent e content w).2.comments = w.comments ∧
    (fillContent e content w).2.logs = w.logs ∧
    (fillContent e content w).2.users = w.users := by
  unfold fillContent
  split
  · split <;> simp
  · simp

/-- C6, as stated, fails: Ann logs in when the clock reads 1.5 s; the token
signs user id 7 and the expiry 259201 s, half a second less than 72 hours
after the clock reading. -/
theorem Login_expiry_is_truncated :
    Login pgxEnv (loginRequest ⟨"ann@example.com", "secret"⟩) smallWorld =
      (.json 200 (.token "12345.7.259201000000000"), smallWorld) ∧
    pgxEnv.signedString ⟨7, 259201000000000⟩ jwtSecret = .ok "12345.7.259201000000000" ∧
    (259201000000000 : Int) ≠ pgxEnv.now + 72 * 3600 * 1000000000 ∧
    pgxEnv.now + 72 * 3600 * 1000000000 = 259201500000000 :=
  ⟨by decide, rfl, by decide, by decide⟩

/-- C6, amended: `Login` answers with a token `tok` exactly when the status is
200, the body binds, the email lookup returns a user row, the password
comparison succeeds, and `tok` is the signature under `jwtSecret` of the
claims whose `user_id` is the id of the row matched by the email and whose
`exp` is the instant 72 hours after `now` rounded down to a whole second.
That expiry is at most 72 hours and more than 72 hours less one second after
`now`, and exactly 72 hours after `now` when `now` is a whole second. -/
theorem Login_token_claims (e : Env) (c : Context) (w : World) (status : Nat) (tok : String) :
    ((Login e c w).1 = .json status (.token tok) ↔
      status = 200 ∧
      ∃ req u, c.bindLogin = some req ∧ e.pool.initialised = true ∧
        e.pool.queryFault = none ∧
        w.users.find? (fun x => x.Email == req.Email) = some u ∧
        e.compareHashAndPassword u.Password req.Password = true ∧
        e.signedString
          { user_id := u.ID,
            exp := e.now + 259200000000000 - (e.now + 259200000000000) % 1000000000 }
          jwtSecret = .ok tok) ∧
    e.now + 259200000000000 - (e.now + 259200000000000) % 1000000000 ≤
      e.now + 259200000000000 ∧
    e.now + 259200000000000 - 1000000000 <
      e.now + 259200000000000 - (e.now + 259200000000000) % 1000000000 ∧
    (e.now % 1000000000 = 0 →
      e.now + 259200000000000 - (e.now + 259200000000000) % 1000000000 =
        e.now + 259200000000000) := by
  refine ⟨?_, by omega, by omega, by omega⟩
  unfold Login
  cases hb : c.bindLogin with
  | none => simp
  | some req =>
    by_cases hp : e.pool.initialised = true
    · cases hq : e.pool.queryFault with
      | some err => simp [hp, selectUserByEmail, hq]
      | none =>
        cases hf : w.users.find? (fun x => x.Email == req.Email) with
        | none => simp [hp, selectUserByEmail, hq, hf]
        | some u =>
          have hcl : loginClaims e ⟨u.ID, "", u.Email, "", u.Password, 0⟩ =
              { user_id := u.ID,
                exp := e.now + 259200000000000 - (e.now + 259200000000000) % 1000000000 } := by
            simp only [loginClaims, NewNumericDate, Hour, Second]
            norm_num
          by_cases hc : e.compareHashAndPassword u.Password req.Password = true
          · cases hs : e.signedString (loginClaims e ⟨u.ID, "", u.Email, "", u.Password, 0⟩)
                jwtSecret with
            | error err =>
              have hs2 := hs
              rw [hcl] at hs2
              simp [hp, selectUserByEmail, hq, hf, hc, hs, hs2]
            | ok t =>
              have hs2 := hs
              rw [hcl] at hs2
              simp [hp, selectUserByEmail, hq, hf, hc, hs, hs2]
              intro _
              exact eq_comm
          · simp [hp, selectUserByEmail, hq, hf, hc]
    · simp [hp]

/-- Witness of C6 amended: Ann logs in when the clock reads 1.5 s and the
token signs the expiry 259201 s. -/
theorem Login_token_claims_witness :
    (Login pgxEnv (loginRequest ⟨"ann@example.com", "secret"⟩) smallWorld).1 =
      .json 200 (.token "12345.7.259201000000000") :=
  (Login_token_claims pgxEnv (loginRequest ⟨"ann@example.com", "secret"⟩) smallWorld 200
    "12345.7.259201000000000").1.2
    ⟨rfl, ⟨"ann@example.com", "secret"⟩,
      ⟨7, "Ann Lee", "ann@example.com", "ann", "hash:secret", 30⟩,
      rfl, rfl, rfl, by decide, by decide, rfl⟩

/-- C7: for an authenticated `CreatePost` request that binds and whose image
URL validates. If every character of the content is white space (the empty
content included): when the joke service returns `j` it is called once, a
successful insert with id `n` persists and returns the post with content
exactly `j`, and no other row can be added; when the joke service fails the
response is 500 and no table changes. If some character of the content is not
white space, the joke service is not called and a successful insert persists
and returns the content as supplied. -/
theorem CreatePost_blank_content (e : Env) (c : Context) (w : World) (post : Post)
    (hauth : c.tokenUserID ≠ 0) (hb : c.bindPost = some post)
    (hv : validatePost e post = true) :
    ((∀ ch ∈ post.Content.data, isSpace ch = true) →
      (∀ j, FetchRandomJoke e.joke = .ok j →
        (CreatePost e c w).2.jokeCalls = w.jokeCalls + 1 ∧
        (∀ n, e.pool.initialised = true → e.pool.insertResult = .ok n →
          (CreatePost e c w).1 =
            .json 201 (.post "post created successfully"
              ⟨n, j, post.ImageURL, c.tokenUserID⟩) ∧
          (CreatePost e c w).2.posts = w.posts ++ [⟨n, j, post.ImageURL, c.tokenUserID⟩]) ∧
        ((CreatePost e c w).2.posts = w.posts ∨
          ∃ n, (CreatePost e c w).2.posts =
            w.posts ++ [⟨n, j, post.ImageURL, c.tokenUserID⟩])) ∧
      (∀ err, FetchRandomJoke e.joke = .error err →
        CreatePost e c w =
          (.json 500 (.message "failed to fetch random joke"),
            { w with jokeCalls := w.jokeCalls + 1 }))) ∧
    ((∃ ch ∈ post.Content.data, isSpace ch = false) →
      (CreatePost e c w).2.jokeCalls = w.jokeCalls ∧
      (∀ n, e.pool.initialised = true → e.pool.insertResult = .ok n →
        (CreatePost e c w).1 =
          .json 201 (.post "post created successfully"
            ⟨n, post.Content, post.ImageURL, c.tokenUserID⟩) ∧
        (CreatePost e c w).2.posts =
          w.posts ++ [⟨n, post.Content, post.ImageURL, c.tokenUserID⟩]) ∧
      ((CreatePost e c w).2.posts = w.posts ∨
        ∃ n, (CreatePost e c w).2.posts =
          w.posts ++ [⟨n, post.Content, post.ImageURL, c.tokenUserID⟩])) := by
  refine ⟨fun hblank => ⟨fun j hj => ?_, fun err herr => ?_⟩, fun hnb => ?_⟩
  · have ht : TrimSpace post.Content = "" := (TrimSpace_eq_empty_iff _).2 hblank
    have hfill : fillContent e post.Content w =
        (some j, { w with jokeCalls := w.jokeCalls + 1 }) := by
      simp [fillContent, ht, hj]
    by_cases hp : e.pool.initialised = true
    · cases hi : e.pool.insertResult with
      | error err => simp [CreatePost, hauth, hb, hv, hfill, hp, insertPost, hi]
      | ok n =>
        cases hl : e.pool.logFault <;>
          simp [CreatePost, hauth, hb, hv, hfill, hp, insertPost, hi, LogActivity, hl]
    · simp [CreatePost, hauth, hb, hv, hfill, hp]
  · have ht : TrimSpace post.Content = "" := (TrimSpace_eq_empty_iff _).2 hblank
    have hfill : fillContent e post.Content w =
        (none, { w with jokeCalls := w.jokeCalls + 1 }) := by
      simp [fillContent, ht, herr]
    simp [CreatePost, hauth, hb, hv, hfill]
  · have ht : ¬ TrimSpace post.Content = "" := by
      rw [TrimSpace_eq_empty_iff]
      obtain ⟨ch, hmem, hch⟩ := hnb
      intro hall
      rw [hall ch hmem] at hch
      exact Bool.noConfusion hch
    have hfill : fillContent e post.Content w = (some post.Content, w) := by
      simp [fillContent, ht]
    by_cases hp : e.pool.initialised = true
    · cases hi : e.pool.insertResult with
      | error err => simp [CreatePost, hauth, hb, hv, hfill, hp, insertPost, hi]
      | ok n =>
        cases hl : e.pool.logFault <;>
          simp [CreatePost, hauth, hb, hv, hfill, hp, insertPost, hi, LogActivity, hl]
    · simp [CreatePost, hauth, hb, hv, hfill, hp]

/-- Witness of C7: user 7 posts white-space content; the stored and returned
content is the joke. -/
theorem CreatePost_blank_content_witness :
    (postRequest 7 ⟨0, " \t\n", "http://img/c.png", 0⟩).tokenUserID ≠ 0 ∧
    validatePost pgxEnv ⟨0, " \t\n", "http://img/c.png", 0⟩ = true ∧
    (CreatePost pgxEnv (postRequest 7 ⟨0, " \t\n", "http://img/c.png", 0⟩) smallWorld).1 =
      .json 201 (.post "post created successfully"
        ⟨10, "Why did the gopher cross the road?", "http://img/c.png", 7⟩) :=
  ⟨by decide, by decide,
    ((((CreatePost_blank_content pgxEnv (postRequest 7 ⟨0, " \t\n", "http://img/c.png", 0⟩)
      smallWorld ⟨0, " \t\n", "http://img/c.png", 0⟩ (by decide) rfl (by decide)).1
      (by decide)).1 "Why did the gopher cross the road?" rfl).2.1 10 rfl rfl).1⟩

/-- Response of `CreatePost` once the insert has succeeded with id `n`. -/
theorem CreatePost_response_of_insert (e : Env) (c : Context) (w : World) (post : Post)
    (content : String) (n : Int)
    (hauth : c.tokenUserID ≠ 0) (hb : c.bindPost = some post)
    (hv : validatePost e post = true)
    (hfill : (fillContent e post.Content w).1 = some content)
    (hp : e.pool.initialised = true) (hi : e.pool.insertResult = .ok n) :
    (CreatePost e c w).1 =
      .json 201 (.post "post created successfully"
        ⟨n, content, post.ImageURL, c.tokenUserID⟩) := by
  rcases hfc : fillContent e post.Content w with ⟨o, w1⟩
  rw [hfc] at hfill
  simp only at hfill
  subst hfill
  simp [CreatePost, hauth, hb, hv, hfc, hp, insertPost, hi]

/-- C8: for a `CreatePost` request that reaches the insert with content
`content` and whose insert succeeds with id `n`: the response is 201 with the
created post and the post is appended, whatever the activity insert does; the
response does not depend on the fault of the activity insert; when that insert
fails the log is unchanged and when it succeeds exactly one entry is appended,
for the caller, with description "User created a new POST with ID " followed
by the decimal form of `n`. -/
theorem CreatePost_activity_best_effort (e : Env) (c : Context) (w : World) (post : Post)
    (content : String) (n : Int)
    (hauth : c.tokenUserID ≠ 0) (hb : c.bindPost = some post)
    (hv : validatePost e post = true)
    (hfill : (fillContent e post.Content w).1 = some content)
    (hp : e.pool.initialised = true) (hi : e.pool.insertResult = .ok n) :
    (CreatePost e c w).1 =
      .json 201 (.post "post created successfully"
        ⟨n, content, post.ImageURL, c.tokenUserID⟩) ∧
    (CreatePost e c w).2.posts = w.posts ++ [⟨n, content, post.ImageURL, c.tokenUserID⟩] ∧
    (∀ fault, (CreatePost { e with pool := { e.pool with logFault := fault } } c w).1 =
      (CreatePost e c w).1) ∧
    (∀ err, e.pool.logFault = some err → (CreatePost e c w).2.logs = w.logs) ∧
    (e.pool.logFault = none →
      (CreatePost e c w).2.logs =
        w.logs ++ [⟨e.pool.logID, c.tokenUserID,
          "User created a new POST with ID " ++ Itoa n, e.pool.logCreatedAt⟩]) := by
  obtain ⟨hposts, -, hlogs, -⟩ := fillContent_frame e post.Content w
  have hresp := CreatePost_response_of_insert e c w post content n hauth hb hv hfill hp hi
  have hresp2 : ∀ fault,
      (CreatePost { e with pool := { e.pool with logFault := fault } } c w).1 =
        .json 201 (.post "post created successfully"
          ⟨n, content, post.ImageURL, c.tokenUserID⟩) := fun fault =>
    CreatePost_response_of_insert { e with pool := { e.pool with logFault := fault } } c w post
      content n hauth hb hv hfill hp hi
  rcases hfc : fillContent e post.Content w with ⟨o, w1⟩
  rw [hfc] at hfill hposts hlogs
  simp only at hfill hposts hlogs
  subst hfill
  refine ⟨?_, ?_, ?_, ?_, ?_⟩
  · exact hresp
  · cases hl : e.pool.logFault <;>
      simp [CreatePost, hauth, hb, hv, hfc, hp, insertPost, hi, LogActivity, hl, hposts]
  · intro fault
    rw [hresp2 fault, hresp]
  · intro err hl
    simp [CreatePost, hauth, hb, hv, hfc, hp, insertPost, hi, LogActivity, hl, hlogs]
  · intro hl
    simp [CreatePost, hauth, hb, hv, hfc, hp, insertPost, hi, LogActivity, hl, hlogs]

/-- Witness of C8: user 7 creates a post, storage assigns id 10, the activity
entry reads "User created a new POST with ID 10". -/
theorem CreatePost_activity_best_effort_witness :
    (fillContent pgxEnv "new post" smallWorld).1 = some "new post" ∧
    pgxEnv.pool.insertResult = .ok 10 ∧
    (CreatePost pgxEnv (postRequest 7 ⟨0, "new post", "http://img/c.png", 0⟩)
        smallWorld).2.logs =
      [⟨1, 7, "User created a new POST with ID 10", "2024-12-01T10:00:00Z"⟩] :=
  ⟨by decide, rfl,
    (CreatePost_activity_best_effort pgxEnv
      (postRequest 7 ⟨0, "new post", "http://img/c.png", 0⟩) smallWorld
      ⟨0, "new post", "http://img/c.png", 0⟩ "new post" 10 (by decide) rfl (by decide)
      (by decide) rfl rfl).2.2.2.2 rfl⟩

/-- C9: for an authenticated `CreateComment` request that binds and validates,
when `LogActivity` fails (the pool is nil, or the activity insert is
rejected) the response is 500 "failed to log activity" and the world,
comments included, is unchanged. -/
theorem CreateComment_log_failure_aborts (e : Env) (c : Context) (w : World)
    (comment : Comment)
    (hauth : c.tokenUserID ≠ 0) (hb : c.bindComment = some comment)
    (hv : validateComment comment = true)
    (hfail : e.pool.initialised = false ∨ ∃ err, e.pool.logFault = some err) :
    CreateComment e c w = (.json 500 (.message "failed to log activity"), w) := by
  rcases hfail with hp | ⟨err, hl⟩
  · simp [CreateComment, hauth, hb, hv, LogActivity, hp]
  · by_cases hp : e.pool.initialised = true
    · simp [CreateComment, hauth, hb, hv, LogActivity, hp, hl]
    · simp [CreateComment, hauth, hb, hv, LogActivity, hp]

/-- Witness of C9: the activity insert is rejected while user 8 comments on post 1. -/
theorem CreateComment_log_failure_aborts_witness :
    (commentRequest 8 ⟨0, "agreed", 1, 0⟩).tokenUserID ≠ 0 ∧
    validateComment ⟨0, "agreed", 1, 0⟩ = true ∧
    rejectingLogEnv.pool.logFault = some (DbError.other "connection reset") ∧
    CreateComment rejectingLogEnv (commentRequest 8 ⟨0, "agreed", 1, 0⟩) smallWorld =
      (.json 500 (.message "failed to log activity"), smallWorld) :=
  ⟨by decide, by decide, rfl,
    CreateComment_log_failure_aborts rejectingLogEnv (commentRequest 8 ⟨0, "agreed", 1, 0⟩)
      smallWorld ⟨0, "agreed", 1, 0⟩ (by decide) rfl (by decide) (Or.inr ⟨_, rfl⟩)⟩

/-- C10: user 8 comments on post 77 and storage rejects the insert into
`comments`: the response is 500 "failed to create comment", no comment is
persisted, yet the activity log has gained the entry "User commented on POST
with ID 77", because `CreateComment` records the activity before the insert. -/
theorem CreateComment_logs_before_failed_insert :
    CreateComment rejectingInsertEnv (commentRequest 8 ⟨0, "agreed", 77, 0⟩) smallWorld =
      (.json 500 (.message "failed to create comment"),
        { smallWorld with
          logs := [⟨1, 8, "User commented on POST with ID 77", "2024-12-01T10:00:00Z"⟩] }) ∧
    (CreateComment rejectingInsertEnv (commentRequest 8 ⟨0, "agreed", 77, 0⟩)
      smallWorld).2.comments = smallWorld.comments ∧
    (CreateComment rejectingInsertEnv (commentRequest 8 ⟨0, "agreed", 77, 0⟩)
      smallWorld).2.logs ≠ smallWorld.logs := by
  decide

/-- Bounds on the activity log: `CreatePost` leaves it unchanged unless it
answers 201, and each of `CreatePost` and `CreateComment` appends at most one
entry. -/
theorem activity_log_append_bounds (e : Env) (c : Context) (w : World) :
    ((CreatePost e c w).1.status? ≠ some 201 → (CreatePost e c w).2.logs = w.logs) ∧
    (∃ l, l.length ≤ 1 ∧ (CreatePost e c w).2.logs = w.logs ++ l) ∧
    (∃ l, l.length ≤ 1 ∧ (CreateComment e c w).2.logs = w.logs ++ l) := by
  have hpost : ((CreatePost e c w).1.status? ≠ some 201 → (CreatePost e c w).2.logs = w.logs) ∧
      ((CreatePost e c w).2.logs = w.logs ∨ ∃ a, (CreatePost e c w).2.logs = w.logs ++ [a]) := by
    by_cases h0 : c.tokenUserID = 0
    · simp [CreatePost, h0]
    · cases hb : c.bindPost with
      | none => simp [CreatePost, h0, hb]
      | some post =>
        by_cases hv : validatePost e post = true
        · have hfl := (fillContent_frame e post.Content w).2.2.1
          rcases hfc : fillContent e post.Content w with ⟨o, w1⟩
          rw [hfc] at hfl
          simp only at hfl
          cases o with
          | none => simp [CreatePost, h0, hb, hv, hfc, hfl]
          | some content =>
            by_cases hp : e.pool.initialised = true
            · cases hi : e.pool.insertResult with
              | error err => simp [CreatePost, h0, hb, hv, hfc, hfl, hp, insertPost, hi]
              | ok n =>
                cases hl : e.pool.logFault <;>
                  simp [CreatePost, h0, hb, hv, hfc, hfl, hp, insertPost, hi, LogActivity, hl,
                    Outcome.status?]
            · simp [CreatePost, h0, hb, hv, hfc, hfl, hp]
        · simp [CreatePost, h0, hb, hv]
  have hcomment : (CreateComment e c w).2.logs = w.logs ∨
      ∃ a, (CreateComment e c w).2.logs = w.logs ++ [a] := by
    by_cases h0 : c.tokenUserID = 0
    · simp [CreateComment, h0]
    · cases hb : c.bindComment with
      | none => simp [CreateComment, h0, hb]
      | some comment =>
        by_cases hv : validateComment comment = true
        · by_cases hp : e.pool.initialised = true
          · cases hl : e.pool.logFault with
            | some err => simp [CreateComment, h0, hb, hv, LogActivity, hp, hl]
            | none =>
              cases hi : e.pool.insertResult <;>
                simp [CreateComment, h0, hb, hv, LogActivity, hp, hl, insertComment, hi]
          · simp [CreateComment, h0, hb, hv, LogActivity, hp]
        · simp [CreateComment, h0, hb, hv]
  refine ⟨hpost.1, ?_, ?_⟩
  · rcases hpost.2 with h | ⟨a, h⟩
    · exact ⟨[], by simp, by simpa using h⟩
    · exact ⟨[a], by simp, h⟩
  · rcases hcomment with h | ⟨a, h⟩
    · exact ⟨[], by simp, by simpa using h⟩
    · exact ⟨[a], by simp, h⟩

/-- Result of `Register` once the body binds, the password hashes to `hash`
and the insert succeeds with id `n`: status 200, `user_id` the conversion
`string(n)`, and the row appended as sent. -/
theorem Register_of_insert (e : Env) (c : Context) (w : World) (req : RegisterRequest)
    (hash : String) (n : Int)
    (hb : c.bindRegister = some req) (hh : e.generateFromPassword req.Password = .ok hash)
    (hp : e.pool.initialised = true) (hi : e.pool.insertResult = .ok n) :
    Register e c w =
      (.json 200 (.registered "User registered successfully" (runeString n) req.Email),
        { w with users :=
            w.users ++ [⟨n, req.FullName, req.Email, req.Username, hash, req.Age⟩] }) := by
  simp [Register, hb, hh, hp, insertUser, hi]

/-- C11: for a `Register` request that binds and whose password hashes, on an
initialised pool, when storage rejects the insert with error `err`: the world
(the users table included) is unchanged; the response is 400 "Email already
registered" when `err` is a `*pgconn.PgError` with code 23505, and 500
"Internal Server Error" for every other error. -/
theorem Register_storage_error (e : Env) (c : Context) (w : World) (req : RegisterRequest)
    (hash : String) (err : DbError)
    (hb : c.bindRegister = some req) (hh : e.generateFromPassword req.Password = .ok hash)
    (hp : e.pool.initialised = true) (hi : e.pool.insertResult = .error err) :
    (Register e c w).2 = w ∧
    (err = DbError.pgError "23505" →
      (Register e c w).1 = .json 400 (.message "Email already registered")) ∧
    (err ≠ DbError.pgError "23505" →
      (Register e c w).1 = .json 500 (.message "Internal Server Error")) := by
  cases err with
  | pgError code =>
    by_cases hc : code = "23505"
    · simp [Register, hb, hh, hp, insertUser, hi, hc]
    · simp [Register, hb, hh, hp, insertUser, hi, hc]
  | sqlErrNoRows => simp [Register, hb, hh, hp, insertUser, hi]
  | pgxErrNoRows => simp [Register, hb, hh, hp, insertUser, hi]
  | other msg => simp [Register, hb, hh, hp, insertUser, hi]

/-- Witness of C11: a second registration with Ann's email is rejected by
storage with code 23505. -/
theorem Register_storage_error_witness :
    uniqueViolationEnv.pool.insertResult = .error (DbError.pgError "23505") ∧
    Register uniqueViolationEnv
        (registerRequest ⟨"Ann Two", "ann@example.com", "ann2", "pw", 31⟩) smallWorld =
      (.json 400 (.message "Email already registered"), smallWorld) :=
  ⟨rfl,
    Prod.ext
      ((Register_storage_error uniqueViolationEnv
        (registerRequest ⟨"Ann Two", "ann@example.com", "ann2", "pw", 31⟩) smallWorld
        ⟨"Ann Two", "ann@example.com", "ann2", "pw", 31⟩ "hash:pw" (DbError.pgError "23505")
        rfl rfl rfl rfl).2.1 rfl)
      (Register_storage_error uniqueViolationEnv
        (registerRequest ⟨"Ann Two", "ann@example.com", "ann2", "pw", 31⟩) smallWorld
        ⟨"Ann Two", "ann@example.com", "ann2", "pw", 31⟩ "hash:pw" (DbError.pgError "23505")
        rfl rfl rfl rfl).1⟩

/-- C12: Bob registers and storage assigns id 10: the `user_id` of the response
is the one-character text U+000A (a line feed), not the decimal form "10";
and the distinct ids 55296 and 55297 give the same `user_id`, U+FFFD. -/
theorem Register_user_id_is_rune_text :
    Register pgxEnv (registerRequest ⟨"Bob Ray", "bob@example.com", "bob", "pw", 25⟩)
        smallWorld =
      (.json 200 (.registered "User registered successfully" "\n" "bob@example.com"),
        { smallWorld with users :=
            smallWorld.users ++ [⟨10, "Bob Ray", "bob@example.com", "bob", "hash:pw", 25⟩] }) ∧
    runeString 10 ≠ Itoa 10 ∧
    runeString 55296 = runeString 55297 := by
  decide

/-- C13: a request with empty full name, email, username and password and age
0 breaks every declared rule of `RegisterRequest`, and `Register` answers 200
and inserts the row. -/
theorem Register_accepts_invalid_request :
    registerRequestConstraints ⟨"", "", "", "", 0⟩ = false ∧
    Register pgxEnv (registerRequest ⟨"", "", "", "", 0⟩) smallWorld =
      (.json 200 (.registered "User registered successfully" (runeString 10) ""),
        { smallWorld with users := smallWorld.users ++ [⟨10, "", "", "", "hash:", 0⟩] }) := by
  decide

/-- For every request that binds, `Register` gives the same response and
stores the row as sent whether or not the declared rules of `RegisterRequest`
hold: the rules are not consulted. -/
theorem Register_ignores_constraints (e : Env) (c : Context) (w : World)
    (req : RegisterRequest) (hash : String) (n : Int)
    (hb : c.bindRegister = some req) (hh : e.generateFromPassword req.Password = .ok hash)
    (hp : e.pool.initialised = true) (hi : e.pool.insertResult = .ok n) :
    (Register e c w).1.status? = some 200 ∧
    (Register e c w).2.users =
      w.users ++ [⟨n, req.FullName, req.Email, req.Username, hash, req.Age⟩] := by
  rw [Register_of_insert e c w req hash n hb hh hp hi]
  exact ⟨rfl, rfl⟩

end GC3
